import Mathlib

/-!
Verification development for the Colonel agent tool-calling gateway
(`backend/colonel/` in the Ops-Center source): a shallow embedding of the
safety validator (`safety.py`), the skill router (`skill_router.py`), the
bash executor guard (`skill_executor.py`) and the WebSocket gateway's
message loop and LLM round loop (`websocket_gateway.py`), together with
theorems settling the behavioural claims about these components.

Modelling conventions:
* Python strings are Lean `String`s; the Python string operations used
  by the source (slicing, strip, split, replace, startswith, join) are
  given structurally recursive embeddings (`pySlice`, `pyStrip`, ...)
  so that every definition evaluates inside the kernel.
* Python dicts used as ordered key/value maps are association lists with
  insert-or-overwrite (`dictSet`) and key removal (`dictErase`),
  preserving insertion order exactly as CPython dicts do.
* `re` patterns are embedded as an explicit regex AST (`RE`) with a
  backtracking matcher whose candidate order mirrors Python's
  backtracking preference (greedy quantifiers, left-to-right
  alternation), so that first-match spans and `re.sub` behaviour agree
  with the source.
* External effects (the subprocess spawned by `bash_execute`, the
  completion service stream, executor bodies other than the safety
  guards) are abstracted as explicitly passed behaviours; frame
  timestamps, random uuids and wall-clock durations are outside the
  model and omitted from the frame datatype.
-/

namespace Colonel

/-! ## Ordered-dict helpers (CPython dict semantics on association lists) -/

def dictSet {α : Type} (d : List (String × α)) (k : String) (v : α) : List (String × α) :=
  if d.any (fun kv => kv.1 == k) then
    d.map (fun kv => if kv.1 == k then (k, v) else kv)
  else d ++ [(k, v)]

def dictLookup {α : Type} (d : List (String × α)) (k : String) : Option α :=
  (d.find? (fun kv => kv.1 == k)).map (fun kv => kv.2)

def dictErase {α : Type} (d : List (String × α)) (k : String) : List (String × α) :=
  d.filter (fun kv => kv.1 != k)

def keyAdd (d : List String) (k : String) : List String :=
  if d.contains k then d else d ++ [k]

def keyErase (d : List String) (k : String) : List String :=
  d.filter (fun x => x != k)

/-- Python slicing `s[:n]` on strings (by code point, as in CPython). -/
def pySlice (s : String) (n : Nat) : String := String.mk (s.data.take n)

/-- Python `str.strip()` whitespace (ASCII fragment). -/
def pyWS (c : Char) : Bool :=
  c == ' ' || c == '\t' || c == '\n' || c == '\r' || c == '\x0b' || c == '\x0c'

/-- Python `str.strip()`. -/
def pyStrip (s : String) : String :=
  String.mk (((s.data.dropWhile pyWS).reverse.dropWhile pyWS).reverse)

/-- Leftmost occurrence split: `some (before, after)` when `sep` occurs
in the subject, scanning left to right. -/
def splitOnceChars (sep : List Char) : List Char → Option (List Char × List Char)
  | [] => none
  | c :: cs =>
    if sep.isPrefixOf (c :: cs) then some ([], (c :: cs).drop sep.length)
    else
      match splitOnceChars sep cs with
      | some pp => some (c :: pp.1, pp.2)
      | none => none

/-- Python `s.split(sep, 1)` (for nonempty `sep`). -/
def split1 (s sep : String) : List String :=
  match splitOnceChars sep.data s.data with
  | none => [s]
  | some pp => [String.mk pp.1, String.mk pp.2]

def pyReplaceAux (pat repl : List Char) : Nat → List Char → List Char
  | 0, s => s
  | _+1, [] => []
  | fuel+1, c :: cs =>
    if pat.isPrefixOf (c :: cs) then
      repl ++ pyReplaceAux pat repl fuel ((c :: cs).drop pat.length)
    else c :: pyReplaceAux pat repl fuel cs

/-- Python `s.replace(pat, repl)` (for nonempty `pat`): left-to-right,
non-overlapping. -/
def pyReplace (s pat repl : String) : String :=
  String.mk (pyReplaceAux pat.data repl.data (s.data.length + 1) s.data)

/-- Python `s.startswith(pre)`. -/
def pyStartsWith (s pre : String) : Bool := pre.data.isPrefixOf s.data

/-- Python `sep.join(parts)`. -/
def pyJoin (sep : String) : List String → String
  | [] => ""
  | [x] => x
  | x :: y :: xs => x ++ sep ++ pyJoin sep (y :: xs)

/-! ## Regex engine

A small backtracking engine covering exactly the constructs used by the
patterns in `safety.py`: literals, character classes, `\s`/`\S`, `.`,
`*`, `+`, `?`, `{n}`, alternation, `\b`, `$`, and (for `re.sub` rules
with a `\1` backreference) a distinguished leading capture group.
The matcher returns candidate continuations in Python's backtracking
preference order, so taking the head reproduces `re`'s match spans. -/

inductive CItem where
  | ch (c : Char)
  | range (lo hi : Char)
deriving DecidableEq, Repr

inductive RE where
  | eps
  | lit (c : Char)
  | cls (neg : Bool) (items : List CItem)
  | anyc
  | seq (a b : RE)
  | alt (a b : RE)
  | star (r : RE)
  | opt (r : RE)
  | wordB
  | eos
deriving DecidableEq, Repr

def charEqCI (ci : Bool) (pat c : Char) : Bool :=
  if ci then pat.toLower == c.toLower else pat == c

def itemHit (it : CItem) (c : Char) : Bool :=
  match it with
  | .ch d => d == c
  | .range lo hi => decide (lo ≤ c) && decide (c ≤ hi)

def clsHit (ci neg : Bool) (items : List CItem) (c : Char) : Bool :=
  let base := items.any (fun it =>
    itemHit it c || (ci && (itemHit it c.toLower || itemHit it c.toUpper)))
  if neg then !base else base

def isWordChar : Option Char → Bool
  | none => false
  | some c => c.isAlphanum || c == '_'

/-- Greedy star iteration: longer matches first, each iteration must
consume at least one character (every starred body in the embedded
patterns consumes a character, matching `re`'s behaviour there). -/
def mtchStar (m : Option Char → List Char → List (Option Char × List Char)) :
    Nat → Option Char → List Char → List (Option Char × List Char)
  | 0, p, s => [(p, s)]
  | fuel+1, p, s =>
    ((m p s).flatMap fun pr =>
      if pr.2.length < s.length then mtchStar m fuel pr.1 pr.2 else []) ++ [(p, s)]

/-- Match a regex against a suffix `s` of the subject, with `p` the
character immediately to the left (for `\b`).  Returns the list of
`(new left char, remaining suffix)` continuations in backtracking
preference order. -/
def mtch (ci : Bool) : RE → Option Char → List Char → List (Option Char × List Char)
  | .eps, p, s => [(p, s)]
  | .lit c, _, s =>
    match s with
    | [] => []
    | x :: xs => if charEqCI ci c x then [(some x, xs)] else []
  | .cls neg items, _, s =>
    match s with
    | [] => []
    | x :: xs => if clsHit ci neg items x then [(some x, xs)] else []
  | .anyc, _, s =>
    match s with
    | [] => []
    | x :: xs => if x == '\n' then [] else [(some x, xs)]
  | .seq a b, p, s => (mtch ci a p s).flatMap fun pr => mtch ci b pr.1 pr.2
  | .alt a b, p, s => mtch ci a p s ++ mtch ci b p s
  | .star r, p, s => mtchStar (mtch ci r) (s.length + 1) p s
  | .opt r, p, s => mtch ci r p s ++ [(p, s)]
  | .wordB, p, s => if isWordChar p != isWordChar s.head? then [(p, s)] else []
  | .eos, p, s => if s.isEmpty || s == ['\n'] then [(p, s)] else []

/-- `re.search` semantics: try to match at position 0, 1, ... -/
def searchFrom (ci : Bool) (re : RE) : Option Char → List Char → Bool
  | p, [] => !(mtch ci re p []).isEmpty
  | p, c :: cs => !(mtch ci re p (c :: cs)).isEmpty || searchFrom ci re (some c) cs

def reSearch (ci : Bool) (re : RE) (s : String) : Bool :=
  searchFrom ci re none s.data

/-- One `re.sub` rule: the pattern split as a leading (optional) capture
group `pre` and remainder `post`; `repl` receives the group-1 text and
the whole matched text and returns the replacement.  Rules without a
backreference put the whole pattern in `pre` and ignore the arguments. -/
structure SubRule where
  ci : Bool
  pre : RE
  post : RE
  repl : String → String → String

/-- First (preference-order) match of a rule at the current position:
returns `(group-1 length, whole-match length)`. -/
def mtchRule (ru : SubRule) (p : Option Char) (s : List Char) : Option (Nat × Nat) :=
  (mtch ru.ci ru.pre p s).findSome? fun pr1 =>
    (mtch ru.ci ru.post pr1.1 pr1.2).findSome? fun pr2 =>
      some (s.length - pr1.2.length, s.length - pr2.2.length)

/-- `re.sub` left-to-right scan.  `fuel` only guards termination and is
always supplied as `length + 1`, which is sufficient since every step
either consumes input or ends the scan. -/
def subGo (ru : SubRule) : Nat → Option Char → List Char → List Char → List Char
  | 0, _, s, acc => acc ++ s
  | fuel+1, p, s, acc =>
    match mtchRule ru p s with
    | none =>
      match s with
      | [] => acc
      | c :: cs => subGo ru fuel (some c) cs (acc ++ [c])
    | some (g, t) =>
      if t == 0 then
        match s with
        | [] => acc ++ (ru.repl "" "").data
        | c :: cs => subGo ru fuel (some c) cs (acc ++ (ru.repl "" "").data ++ [c])
      else
        let whole := String.mk (s.take t)
        let grp := String.mk (s.take g)
        subGo ru fuel (s.get? (t - 1)) (s.drop t) (acc ++ (ru.repl grp whole).data)

def reSub (ru : SubRule) (s : String) : String :=
  String.mk (subGo ru (s.length + 1) none s.data [])

/-! ## Pattern-building helpers -/

def reStr (s : String) : RE := (s.data.map RE.lit).foldr RE.seq RE.eps

def reCat (rs : List RE) : RE := rs.foldr RE.seq RE.eps

def rePlus (r : RE) : RE := RE.seq r (RE.star r)

def reRep : Nat → RE → RE
  | 0, _ => RE.eps
  | n+1, r => RE.seq r (reRep n r)

def reAlts : List RE → RE
  | [] => RE.eps
  | [r] => r
  | r :: rest => RE.alt r (reAlts rest)

/-- Python `\s`: the class `[ \t\n\r\f\v]` (ASCII fragment). -/
def sClsItems : List CItem :=
  [.ch ' ', .ch '\t', .ch '\n', .ch '\r', .ch '\x0c', .ch '\x0b']

def sCls : RE := RE.cls false sClsItems

def sNeg : RE := RE.cls true sClsItems

/-! ## safety.py — blocked patterns and `validate_command` -/

/-- One entry of `BLOCKED_PATTERNS`: the pattern's source text (used in
the reason message) and its parsed form. -/
structure BPat where
  src : String
  re : RE

/-- The `BLOCKED_PATTERNS` list of `safety.py`, in source order.  The
empty group `()` in the fork-bomb pattern matches the empty string and
is dropped; `{` and `}` are literal characters there since they form no
valid quantifier. -/
def BLOCKED_PATTERNS : List BPat := [
  ⟨"\\brm\\s+(-rf?\\s+)?/\\s*$",
    reCat [.wordB, reStr "rm", rePlus sCls,
      .opt (reCat [.lit '-', .lit 'r', .opt (.lit 'f'), rePlus sCls]),
      .lit '/', .star sCls, .eos]⟩,
  ⟨"\\brm\\s+(-rf?\\s+)?/\\*",
    reCat [.wordB, reStr "rm", rePlus sCls,
      .opt (reCat [.lit '-', .lit 'r', .opt (.lit 'f'), rePlus sCls]),
      .lit '/', .lit '*']⟩,
  ⟨"\\bmkfs\\b", reCat [.wordB, reStr "mkfs", .wordB]⟩,
  ⟨"\\bdd\\s+.*of=/dev/",
    reCat [.wordB, reStr "dd", rePlus sCls, .star .anyc, reStr "of=/dev/"]⟩,
  ⟨":()\x7b.*\x7d;:",
    reCat [.lit ':', .lit '\x7b', .star .anyc, .lit '\x7d', .lit ';', .lit ':']⟩,
  ⟨"\\bshutdown\\b", reCat [.wordB, reStr "shutdown", .wordB]⟩,
  ⟨"\\breboot\\b", reCat [.wordB, reStr "reboot", .wordB]⟩,
  ⟨"\\binit\\s+0\\b", reCat [.wordB, reStr "init", rePlus sCls, .lit '0', .wordB]⟩,
  ⟨"\\bpoweroff\\b", reCat [.wordB, reStr "poweroff", .wordB]⟩,
  ⟨">\\s*/dev/sd", reCat [.lit '>', .star sCls, reStr "/dev/sd"]⟩,
  ⟨"\\bchmod\\s+777\\s+/",
    reCat [.wordB, reStr "chmod", rePlus sCls, reStr "777", rePlus sCls, .lit '/']⟩,
  ⟨"\\bchown\\s+.*\\s+/\\s*$",
    reCat [.wordB, reStr "chown", rePlus sCls, .star .anyc, rePlus sCls,
      .lit '/', .star sCls, .eos]⟩,
  ⟨"DROP\\s+DATABASE", reCat [reStr "DROP", rePlus sCls, reStr "DATABASE"]⟩,
  ⟨"DROP\\s+TABLE.*CASCADE",
    reCat [reStr "DROP", rePlus sCls, reStr "TABLE", .star .anyc, reStr "CASCADE"]⟩,
  ⟨"TRUNCATE\\s+TABLE", reCat [reStr "TRUNCATE", rePlus sCls, reStr "TABLE"]⟩,
  ⟨"\\bcurl\\b.*\\|\\s*(ba)?sh",
    reCat [.wordB, reStr "curl", .wordB, .star .anyc, .lit '|', .star sCls,
      .opt (reStr "ba"), reStr "sh"]⟩,
  ⟨"\\bwget\\b.*\\|\\s*(ba)?sh",
    reCat [.wordB, reStr "wget", .wordB, .star .anyc, .lit '|', .star sCls,
      .opt (reStr "ba"), reStr "sh"]⟩,
  ⟨"python.*-c.*import\\s+os.*system",
    reCat [reStr "python", .star .anyc, reStr "-c", .star .anyc,
      reStr "import", rePlus sCls, reStr "os", .star .anyc, reStr "system"]⟩,
  ⟨"\\biptables\\s+(-F|--flush)",
    reCat [.wordB, reStr "iptables", rePlus sCls,
      .alt (reStr "-F") (reStr "--flush")]⟩,
  ⟨"docker\\s+system\\s+prune\\s+-a",
    reCat [reStr "docker", rePlus sCls, reStr "system", rePlus sCls,
      reStr "prune", rePlus sCls, reStr "-a"]⟩]

def blockReason (p : BPat) : String :=
  "Blocked: Command matches dangerous pattern (" ++ p.src ++ ")"

/-- `validate_command` of `safety.py`: first blocked pattern wins
(patterns are searched with `re.IGNORECASE`); non-matching commands
yield `(True, None)`. -/
def validate_command (command : String) : Bool × Option String :=
  match BLOCKED_PATTERNS.find? (fun p => reSearch true p.re command) with
  | some p => (false, some (blockReason p))
  | none => (true, none)

/-! ## safety.py — confirmation patterns and `requires_confirmation` -/

structure CPat where
  re : RE
  description : String

def CONFIRMATION_PATTERNS : List CPat := [
  ⟨reCat [.wordB, reStr "docker", rePlus sCls,
      reAlts [reStr "stop", reStr "kill", reStr "rm", reStr "restart"]],
    "This will affect a running container"⟩,
  ⟨reCat [.wordB, reStr "docker", rePlus sCls, reStr "compose", rePlus sCls,
      reAlts [reStr "down", reStr "stop", reStr "restart"]],
    "This will affect multiple containers"⟩,
  ⟨reCat [.wordB, reStr "systemctl", rePlus sCls,
      reAlts [reStr "stop", reStr "restart", reStr "disable"]],
    "This will affect a system service"⟩,
  ⟨reCat [.wordB, reStr "kill", .wordB], "This will terminate a process"⟩,
  ⟨reCat [.wordB, reStr "apt", rePlus sCls,
      reAlts [reStr "remove", reStr "purge", reStr "autoremove"]],
    "This will remove packages"⟩,
  ⟨reCat [.wordB, reStr "pip", rePlus sCls, reStr "uninstall", .wordB],
    "This will uninstall Python packages"⟩,
  ⟨reCat [.wordB, reStr "npm", rePlus sCls, reStr "uninstall", .wordB],
    "This will uninstall npm packages"⟩,
  ⟨reCat [reStr "DELETE", rePlus sCls, reStr "FROM"],
    "This will delete database records"⟩,
  ⟨reCat [reStr "UPDATE", rePlus sCls], "This will modify database records"⟩,
  ⟨reCat [reStr "ALTER", rePlus sCls, reStr "TABLE"],
    "This will modify database schema"⟩]

/-- `requires_confirmation` of `safety.py`: first matching pattern's
risk description, `None` when nothing matches. -/
def requires_confirmation (command : String) : Option String :=
  (CONFIRMATION_PATTERNS.find? (fun p => reSearch true p.re command)).map
    (fun p => p.description)

/-! ## safety.py — redaction rules and `sanitize_output` -/

def uCls : RE := RE.cls false [.ch '_', .ch '-']

def hexCls : RE := RE.cls false [.range 'a' 'f', .range '0' '9']

/-- `ANSI_PATTERN` (`\x1b\[[0-9;]*[a-zA-Z]`), substituted by `''`. -/
def ANSI_RULE : SubRule :=
  ⟨false,
    reCat [.lit '\x1b', .lit '[', .star (.cls false [.range '0' '9', .ch ';']),
      .cls false [.range 'a' 'z', .range 'A' 'Z']],
    .eps, fun _ _ => ""⟩

/-- First redaction rule
(`(?i)(password|passwd|secret|token|api[_-]?key|bearer)\s*[=:]\s*\S+`,
substituted by `\1=<REDACTED>`). -/
def credentialRule : SubRule :=
  ⟨true,
    reAlts [reStr "password", reStr "passwd", reStr "secret", reStr "token",
      reCat [reStr "api", .opt uCls, reStr "key"], reStr "bearer"],
    reCat [.star sCls, .cls false [.ch '=', .ch ':'], .star sCls, rePlus sNeg],
    fun g _ => g ++ "=<REDACTED>"⟩

/-- Second redaction rule (`(?i)(Authorization:\s*Bearer\s+)\S+`,
substituted by `\1<REDACTED>`). -/
def bearerRule : SubRule :=
  ⟨true,
    reCat [reStr "Authorization:", .star sCls, reStr "Bearer", rePlus sCls],
    rePlus sNeg,
    fun g _ => g ++ "<REDACTED>"⟩

def skTestRule : SubRule :=
  ⟨false, reCat [reStr "sk", uCls, reStr "test", uCls, rePlus sNeg], .eps,
    fun _ _ => "<STRIPE_KEY_REDACTED>"⟩

def skLiveRule : SubRule :=
  ⟨false, reCat [reStr "sk", uCls, reStr "live", uCls, rePlus sNeg], .eps,
    fun _ _ => "<STRIPE_KEY_REDACTED>"⟩

def pkTestRule : SubRule :=
  ⟨false, reCat [reStr "pk", uCls, reStr "test", uCls, rePlus sNeg], .eps,
    fun _ _ => "<STRIPE_KEY_REDACTED>"⟩

def whsecRule : SubRule :=
  ⟨false, reCat [reStr "whsec_", rePlus sNeg], .eps,
    fun _ _ => "<WEBHOOK_SECRET_REDACTED>"⟩

/-- Last redaction rule: the UUID pattern
(`[a-f0-9]{8}-[a-f0-9]{4}-[a-f0-9]{4}-[a-f0-9]{4}-[a-f0-9]{12}`) with
the source's lambda replacement, which keeps the match when its length
is at most 36. -/
def uuidRule : SubRule :=
  ⟨false,
    reCat [reRep 8 hexCls, .lit '-', reRep 4 hexCls, .lit '-', reRep 4 hexCls,
      .lit '-', reRep 4 hexCls, .lit '-', reRep 12 hexCls],
    .eps,
    fun _ whole => if whole.length ≤ 36 then whole else "<UUID_REDACTED>"⟩

/-- The `REDACT_PATTERNS` list of `safety.py`, in source order.  The
first two rules substitute with a `\1` backreference, embedded here as
the rule's `pre` group. -/
def REDACT_RULES : List SubRule :=
  [credentialRule, bearerRule, skTestRule, skLiveRule, pkTestRule, whsecRule, uuidRule]

def truncationNotice (originalLen : Nat) : String :=
  "\n\n... (output truncated, " ++ toString originalLen ++ " total chars)"

/-- `sanitize_output` of `safety.py`: strip ANSI escapes, apply the
redaction rules in order, then truncate to `maxLength` characters with
a notice stating the ORIGINAL input's length. -/
def sanitize_output (output : String) (maxLength : Nat) : String :=
  let r0 := reSub ANSI_RULE output
  let r := REDACT_RULES.foldl (fun acc ru => reSub ru acc) r0
  if r.length > maxLength then pySlice r maxLength ++ truncationNotice output.length
  else r

/-! ## Protocol frames, parameters and chat messages

Frame ids, timestamps and `duration_ms` are wall-clock values outside
the model; the remaining payload fields are embedded exactly. -/

inductive PVal where
  | str (s : String)
  | bool (b : Bool)
  | num (n : Int)
deriving DecidableEq, Repr

abbrev Params := List (String × PVal)

inductive Frame where
  | chunk (content : String)
  | messageDone (content : String)
  | error (detail : String)
  | skillStart (skill action : String) (params : Params)
  | skillProgress (skill output : String)
  | skillResult (skill action : String) (success : Bool) (output : String)
  | confirmRequired (id skill action description : String) (params : Params)
  | pong
deriving DecidableEq, Repr

def Frame.isMessageDone : Frame → Bool
  | .messageDone _ => true
  | _ => false

def Frame.isErrorFrame : Frame → Bool
  | .error _ => true
  | _ => false

def countMessageDone (fs : List Frame) : Nat := fs.countP (fun f => f.isMessageDone)

/-- The accumulated `function.arguments` payload of a streamed tool
call: the provider may deliver a JSON string, an already-structured
object, or anything else (the source's `else` branch). -/
inductive RawArgs where
  | rstr (s : String)
  | rdict (d : Params)
  | otherVal
deriving DecidableEq, Repr

/-- One accumulated tool call (`{"id": ..., "type": "function",
"function": {"name": ..., "arguments": ...}}`), as assembled by
`_call_llm_stream` from the indexed deltas. -/
structure ToolCall where
  id : String
  fname : String
  arguments : RawArgs
deriving DecidableEq, Repr

structure ChatMessage where
  role : String
  content : String
  tool_call_id : Option String := none
  tool_calls : Option (List ToolCall) := none
  name : Option String := none
deriving DecidableEq, Repr

/-! ## skill_router.py — router state and `handle_confirmation`

`_pending_confirmations` maps confirmation ids to `asyncio.Event`s; the
event itself carries no data, so the pending map is embedded as the
list of ids holding a live event.  `_confirmation_results` maps ids to
booleans. -/

structure RouterState where
  pending : List String
  results : List (String × Bool)
deriving DecidableEq, Repr

/-- `SkillRouter.handle_confirmation`: unconditionally records the
resolution value in `_confirmation_results`, then sets the pending
event when one exists.  The returned `Bool` is whether a waiter's event
was signalled. -/
def handle_confirmation (st : RouterState) (confirmId : String) (confirmed : Bool) :
    RouterState × Bool :=
  (⟨st.pending, dictSet st.results confirmId confirmed⟩, st.pending.contains confirmId)

/-! ## skill_executor.py — `bash_execute` and the executor registry -/

/-- Behaviour of the subprocess spawned by `bash_execute`, an external
effect. -/
inductive ShellOutcome where
  | completed (stdout stderr : String)
  | timedOut
  | raised (e : String)
deriving DecidableEq, Repr

/-- `bash_execute` of `skill_executor.py`.  Returns the result string
together with a flag recording whether the effectful subprocess path
was reached. -/
def bash_execute (shell : ShellOutcome) (command : String) (timeout : Nat) :
    String × Bool :=
  match validate_command command with
  | (allowed, reason) =>
    if !allowed then ("Blocked: " ++ reason.getD "None", false)
    else
      match shell with
      | .timedOut => ("Command timed out after " ++ toString timeout ++ "s", true)
      | .raised e => ("Error executing command: " ++ e, true)
      | .completed out err =>
        let output := if pyStrip err ≠ "" then out ++ "\n[STDERR]\n" ++ err else out
        (if pyStrip output ≠ "" then sanitize_output output 8000 else "(no output)", true)

/-- The key set of `EXECUTOR_MAP` in `skill_executor.py`, in source
order. -/
def EXECUTOR_NAMES : List String := [
  "docker-management__list_containers",
  "docker-management__inspect_container",
  "docker-management__container_logs",
  "docker-management__container_stats",
  "docker-management__manage_container",
  "bash-execution__run_command",
  "system-status__cpu",
  "system-status__memory",
  "system-status__disk",
  "system-status__gpu",
  "system-status__processes",
  "system-status__full_status",
  "service-health__check_all",
  "service-health__check_one",
  "log-viewer__get_logs",
  "log-viewer__search_logs",
  "postgresql-ops__list_databases",
  "postgresql-ops__list_tables",
  "postgresql-ops__query",
  "postgresql-ops__stats",
  "keycloak-auth__list_users",
  "keycloak-auth__list_realms",
  "keycloak-auth__user_info",
  "forgejo-management__list_repos",
  "forgejo-management__list_orgs"]

inductive ExecutorOutcome where
  | ok (s : String)
  | raised (e : String)
deriving DecidableEq, Repr

/-- Result of invoking one executor callable: its outcome plus whether
its effectful path (subprocess, Docker API, database) was reached. -/
structure ExecutorRun where
  outcome : ExecutorOutcome
  effect : Bool
deriving DecidableEq, Repr

def plookup (p : Params) (k : String) : Option PVal := dictLookup p k

def commandParam (p : Params) : Option String :=
  match plookup p "command" with
  | some (.str s) => some s
  | _ => none

/-- The `EXECUTOR_MAP` entry for `bash-execution__run_command`:
`bash_execute(kw["command"], kw.get("timeout", 30))`; a missing
`command` key raises `KeyError('command')`. -/
def bashExecutor (shell : ShellOutcome) (p : Params) : ExecutorRun :=
  match commandParam p with
  | none => ⟨.raised "'command'", false⟩
  | some cmd =>
    let t := match plookup p "timeout" with
      | some (.num n) => n.toNat
      | _ => 30
    let r := bash_execute shell cmd t
    ⟨.ok r.1, r.2⟩

/-- The executor registry: the concrete key set of `EXECUTOR_MAP`, the
concrete bash executor (whose safety guard is the subject of C3), and
abstract behaviours `other` for the remaining effectful executors. -/
def executorsWith (shell : ShellOutcome) (other : String → Params → ExecutorRun) :
    String → Option (Params → ExecutorRun) := fun name =>
  if name = "bash-execution__run_command" then some (bashExecutor shell)
  else if EXECUTOR_NAMES.contains name then some (other name) else none

/-! ## skill_router.py — `SkillRouter.execute` -/

/-- How the environment behaves while `execute` waits on a pending
confirmation: either some task calls `handle_confirmation(id, b)`
before the 60 s deadline, or `asyncio.wait_for` times out. -/
inductive ConfirmBehavior where
  | resolved (b : Bool)
  | timeout
deriving DecidableEq, Repr

/-- The `timeout=60.0` argument of `asyncio.wait_for` in
`SkillRouter.execute`. -/
def confirmTimeoutSeconds : Nat := 60

/-- The confirmation-need computation at the top of `execute`:
the catalog's `confirmation_required` flag (the catalog is loaded by
the external skill-definition loader, so it enters as the function
`catalogConf`), OR a positive `requires_confirmation` on the `command`
parameter for the generic shell action. -/
def confirmReasonFor (funcName : String) (params : Params) : Option String :=
  if funcName = "bash-execution__run_command" then
    match commandParam params with
    | some cmd => requires_confirmation cmd
    | none => none
  else none

def needsConfirmFor (catalogConf : String → Bool) (funcName : String) (params : Params) :
    Bool :=
  catalogConf funcName || (confirmReasonFor funcName params).isSome

/-- `skill_name = parts[0] if parts else func_name` (`parts` is never
empty in Python, so this is `parts[0]`). -/
def execSkillName (funcName : String) : String :=
  (split1 funcName "__").headD funcName

/-- `action_name = parts[1] if len(parts) > 1 else func_name`. -/
def execActionName (funcName : String) : String :=
  (split1 funcName "__").getD 1 funcName

/-- The `confirm_required` frame's description: the safety-pattern risk
description when one fired, else `f"Execute {action_name} on {skill_name}?"`. -/
def confirmDescription (funcName : String) (params : Params) : String :=
  (confirmReasonFor funcName params).getD
    ("Execute " ++ execActionName funcName ++ " on " ++ execSkillName funcName ++ "?")

structure ExecResult where
  frames : List Frame
  result : String
  state : RouterState
  executorInvoked : Bool
  effectReached : Bool

/-- Shared tail of `execute` (from the `skill_start` frame on): invoke
the resolved executor, convert a raise into a failed result string,
emit the `skill_result` frame with the output truncated to 500
characters.  The audit-log insert is an external best-effort effect
with no influence on frames, result or state, and is omitted. -/
def executeDispatch (executors : String → Option (Params → ExecutorRun))
    (funcName skillName actionName : String) (params : Params) (writeEnabled : Bool)
    (frames0 : List Frame) (st : RouterState) : ExecResult :=
  let startF := Frame.skillStart skillName actionName params
  let execParams := if writeEnabled then dictSet params "_write_enabled" (.bool true)
    else params
  match executors funcName with
  | none =>
    let result := "Unknown skill action: " ++ funcName
    ⟨frames0 ++ [startF, .skillResult skillName actionName false (pySlice result 500)],
      result, st, false, false⟩
  | some ex =>
    match ex execParams with
    | ⟨.ok s, eff⟩ =>
      ⟨frames0 ++ [startF, .skillResult skillName actionName true (pySlice s 500)],
        s, st, true, eff⟩
    | ⟨.raised e, eff⟩ =>
      let result := "Skill execution error: " ++ e
      ⟨frames0 ++ [startF, .skillResult skillName actionName false (pySlice result 500)],
        result, st, true, eff⟩

/-- `SkillRouter.execute`.  `confirmId` stands for the fresh
`uuid4()[:8]` id, `cb` for the environment's behaviour during the
confirmation wait.  State updates follow the source line by line:
insert the pending event; on resolution the resolver's
`handle_confirmation` write, then `results.pop(confirm_id, False)`;
the `finally` block pops both maps unconditionally. -/
def execute (catalogConf : String → Bool)
    (executors : String → Option (Params → ExecutorRun))
    (confirmId : String) (cb : ConfirmBehavior)
    (funcName : String) (params : Params) (writeEnabled : Bool)
    (st : RouterState) : ExecResult :=
  let skillName := execSkillName funcName
  let actionName := execActionName funcName
  if needsConfirmFor catalogConf funcName params then
    let reason := confirmDescription funcName params
    let cf := Frame.confirmRequired confirmId skillName actionName reason params
    let st1 : RouterState := ⟨keyAdd st.pending confirmId, st.results⟩
    match cb with
    | .resolved b =>
      let st2 := (handle_confirmation st1 confirmId b).1
      let confirmed := (dictLookup st2.results confirmId).getD false
      let st3 : RouterState := ⟨st2.pending, dictErase st2.results confirmId⟩
      let stF : RouterState :=
        ⟨keyErase st3.pending confirmId, dictErase st3.results confirmId⟩
      if confirmed then
        executeDispatch executors funcName skillName actionName params writeEnabled
          [cf] stF
      else ⟨[cf], "Action cancelled by user.", stF, false, false⟩
    | .timeout =>
      let fr := Frame.skillResult skillName actionName false "Confirmation timed out (60s)"
      let stF : RouterState :=
        ⟨keyErase st1.pending confirmId, dictErase st1.results confirmId⟩
      ⟨[cf, fr], "Action cancelled by user.", stF, false, false⟩
  else
    executeDispatch executors funcName skillName actionName params writeEnabled [] st

/-! ## websocket_gateway.py — `_call_llm_stream` and the round loop

The completion service is an external collaborator: its behaviour on
the round with index `i` is given by the environment as an `LLMRound`:
the list of nonempty content deltas it streams and either the
accumulated tool calls, or an error (non-200 / stream error object /
timeout / transport failure) after some partial deltas.  Prompt
construction (config, memories, graph context, skill descriptions,
`llm_messages` replay) only shapes the request sent to that external
service and so is absorbed into the environment's script. -/

inductive LLMRound where
  | ok (chunks : List String) (toolCalls : List ToolCall)
  | errAfter (chunks : List String) (detail : String)

/-- `_call_llm_stream`: one `chunk` frame per nonempty content delta;
on an upstream error one `error` frame and a `(partial content, None)`
return; otherwise the accumulated tool calls, with an empty
accumulation returned as `None`. -/
def callLLMStream : LLMRound → List Frame × String × Option (List ToolCall)
  | .ok chunks tcs =>
    ((chunks.filter (fun c => c ≠ "")).map Frame.chunk, pyJoin "" chunks,
      if tcs.isEmpty then none else some tcs)
  | .errAfter chunks detail =>
    ((chunks.filter (fun c => c ≠ "")).map Frame.chunk ++ [.error detail],
      pyJoin "" chunks, none)

/-- The tool-call filter of `_stream_response` (lines 377-395): drop
calls with an empty function name; parse string arguments with
`json.loads` (embedded as the abstract stdlib parser `parse`), dropping
the call when parsing fails; accept dict arguments as-is; default
anything else to `{}`. -/
def validToolCalls (parse : String → Option Params) (tcs : List ToolCall) :
    List (ToolCall × Params) :=
  tcs.filterMap fun tc =>
    if tc.fname = "" then none
    else match tc.arguments with
      | .rstr s =>
        if pyStrip s ≠ "" then (parse s).map (fun p => (tc, p)) else some (tc, ([] : Params))
      | .rdict d => some (tc, d)
      | .otherVal => some (tc, ([] : Params))

/-- `_normalize_tc_id`: keep empty ids and ids already in the OpenAI
`call_` format; rewrite anything else, retaining the old-to-new mapping
in the turn's remap table. -/
def normalizeTcId (remap : List (String × String)) (rawId : String) :
    String × List (String × String) :=
  if rawId = "" then (rawId, remap)
  else if pyStartsWith rawId "call_" then (rawId, remap)
  else
    let newId := "call_" ++ pyReplace (pyReplace rawId "toolu_vrtx_" "") "toolu_" ""
    (newId, dictSet remap rawId newId)

/-- Lines 413-418: normalize the id of every accumulated tool call
(only truthy ids), threading the remap table. -/
def normalizeToolCalls (remap : List (String × String)) :
    List ToolCall → List ToolCall × List (String × String)
  | [] => ([], remap)
  | tc :: rest =>
    let (id', remap') :=
      if tc.id ≠ "" then normalizeTcId remap tc.id else (tc.id, remap)
    let (rest', remap'') := normalizeToolCalls remap' rest
    (⟨id', tc.fname, tc.arguments⟩ :: rest', remap'')

/-- Environment of one `_stream_response` turn: the completion
service's per-round behaviour, the stdlib JSON parser, the
catalog-declared confirmation flags, the executor registry, and per
(round, call-index) the fresh confirmation id and the confirmation
wait's resolution behaviour. -/
structure GatewayEnv where
  rounds : Nat → LLMRound
  parse : String → Option Params
  catalogConf : String → Bool
  executors : String → Option (Params → ExecutorRun)
  confirmEnv : Nat → Nat → String × ConfirmBehavior

structure StreamResult where
  frames : List Frame
  messages : List ChatMessage
  roundsUsed : Nat
deriving Repr

def assistantMsg (content : String) : ChatMessage :=
  ⟨"assistant", content, none, none, none⟩

/-- Lines 470-488, the terminal safety net: when `done_sent` is still
false, join the accumulated content parts; a nonempty join is sent as
`message_done` (appended to the transcript unless it already is the
last message's content), an empty join is sent as the
`"(No response generated)"` placeholder. -/
def safetyNet (msgs : List ChatMessage) (frames : List Frame)
    (allParts : List String) (roundsUsed : Nat) : StreamResult :=
  let finalContent := pyJoin "\n\n" allParts
  if finalContent ≠ "" then
    let msgs' :=
      if msgs.isEmpty || msgs.getLast?.map (fun m => m.content) ≠ some finalContent
      then msgs ++ [assistantMsg finalContent] else msgs
    ⟨frames ++ [.messageDone finalContent], msgs', roundsUsed⟩
  else ⟨frames ++ [.messageDone "(No response generated)"], msgs, roundsUsed⟩

/-- Per-round execution of the valid tool calls (lines 432-454): look
the (possibly remapped) id up, run `SkillRouter.execute`, append the
tool-role transcript message carrying the remapped id and the result.
`j` is the call index within the round, used to draw this call's
confirmation id and wait behaviour from the environment. -/
def execCalls (env : GatewayEnv) (writeEnabled : Bool) (roundNum : Nat)
    (remap : List (String × String)) :
    List (ToolCall × Params) → Nat → List ChatMessage → List Frame → RouterState →
    List ChatMessage × List Frame × RouterState
  | [], _, msgs, frames, st => (msgs, frames, st)
  | (tc, args) :: rest, j, msgs, frames, st =>
    let tcId := (dictLookup remap tc.id).getD tc.id
    let (cid, cb) := env.confirmEnv roundNum j
    let r := execute env.catalogConf env.executors cid cb tc.fname args writeEnabled st
    let toolMsg : ChatMessage := ⟨"tool", r.result, some tcId, none, some tc.fname⟩
    execCalls env writeEnabled roundNum remap rest (j + 1)
      (msgs ++ [toolMsg]) (frames ++ r.frames) r.state

/-- The round loop of `_stream_response` (lines 342-488).  `remaining`
counts the iterations left of `for round_num in range(max_tool_rounds + 1)`;
`roundNum` is the current 0-based round index, so `roundsUsed` in the
result is the number of completion-service calls made.  The skill
router is present (the deployed configuration); the memory client's
best-effort store influences neither frames nor transcript and is
omitted. -/
def streamGo (env : GatewayEnv) (writeEnabled : Bool) :
    Nat → Nat → List ChatMessage → List String → List (String × String) →
    List Frame → RouterState → StreamResult
  | 0, roundNum, msgs, allParts, _, frames, _ =>
    safetyNet msgs frames allParts roundNum
  | remaining+1, roundNum, msgs, allParts, remap, frames, st =>
    let c := callLLMStream (env.rounds roundNum)
    let frames1 := frames ++ c.1
    let content := c.2.1
    let allParts1 := if content ≠ "" then allParts ++ [content] else allParts
    match c.2.2 with
    | none =>
      if content ≠ "" then
        ⟨frames1 ++ [.messageDone content], msgs ++ [assistantMsg content], roundNum + 1⟩
      else safetyNet msgs frames1 allParts1 (roundNum + 1)
    | some tcs =>
      let vtcs := validToolCalls env.parse tcs
      if vtcs.isEmpty then
        if content ≠ "" then
          safetyNet (msgs ++ [assistantMsg content])
            (frames1 ++ [.messageDone content]) allParts1 (roundNum + 1)
        else safetyNet msgs frames1 allParts1 (roundNum + 1)
      else
        let nr := normalizeToolCalls remap tcs
        let msgs1 := msgs ++ [⟨"assistant", content, none, some nr.1, none⟩]
        let e := execCalls env writeEnabled roundNum nr.2 vtcs 0 msgs1 frames1 st
        streamGo env writeEnabled remaining (roundNum + 1) e.1 allParts1 nr.2 e.2.1 e.2.2

def max_tool_rounds : Nat := 5

/-- `_stream_response` for one user turn, starting from the session's
message list (the user message already appended by the message loop)
and the router's confirmation state. -/
def streamResponse (env : GatewayEnv) (writeEnabled : Bool)
    (msgs : List ChatMessage) (st : RouterState) : StreamResult :=
  streamGo env writeEnabled (max_tool_rounds + 1) 0 msgs [] [] [] st

/-! ## websocket_gateway.py — one step of `_message_loop` -/

/-- One inbound client payload: either text that fails `json.loads`
(yielding the `"Invalid JSON"` error frame) or a decoded object with
its `type` (absent defaults to `"message"`), `content`, and the
`confirm_id`/`confirmed` fields of `confirm` frames. -/
inductive Inbound where
  | badJson
  | obj (ty : Option String) (content : String) (confirmId : String) (confirmed : Bool)

inductive StepOutcome where
  | continueLoop
  | crash (exc : String)
deriving DecidableEq, Repr

structure StepResult where
  frames : List Frame
  messages : List ChatMessage
  title : Option String
  router : RouterState
  outcome : StepOutcome
deriving Repr

/-- Line 254: `content[:60] + ("..." if len(content) > 60 else "")`. -/
def autoTitle (content : String) : String :=
  pySlice content 60 ++ (if content.length > 60 then "..." else "")

/-- One iteration of `_message_loop` (lines 221-259).  The `chat` /
`message` branch appends the user message, auto-titles a fresh session
and saves — and then evaluates line 259,
`await self._stream_response(ws, session, config, user, write_enabled)`.
`write_enabled` is a local of `handle_websocket` and is bound nowhere
in `_message_loop` (not a parameter, not a global), so CPython raises
`NameError` there: the step crashes before any streaming happens, and
the exception propagates to `handle_websocket`'s generic handler, which
sends one `error` frame and ends the connection.  A frame whose type is
none of `ping`/`confirm`/`message`/`chat` falls through every branch:
the loop silently continues without any reply frame. -/
def messageLoopStep (inbound : Inbound) (msgs : List ChatMessage)
    (title : Option String) (st : RouterState) : StepResult :=
  match inbound with
  | .badJson => ⟨[.error "Invalid JSON"], msgs, title, st, .continueLoop⟩
  | .obj ty content confirmId confirmed =>
    let msgType := ty.getD "message"
    if msgType = "ping" then ⟨[.pong], msgs, title, st, .continueLoop⟩
    else if msgType = "confirm" then
      ⟨[], msgs, title, (handle_confirmation st confirmId confirmed).1, .continueLoop⟩
    else if msgType = "message" ∨ msgType = "chat" then
      let c := pyStrip content
      if c = "" then ⟨[], msgs, title, st, .continueLoop⟩
      else
        let msgs' := msgs ++ [⟨"user", c, none, none, none⟩]
        let title' := if msgs'.length = 1 then some (autoTitle c) else title
        ⟨[], msgs', title', st, .crash "NameError: name 'write_enabled' is not defined"⟩
    else ⟨[], msgs, title, st, .continueLoop⟩

/-! ## Supporting lemmas -/

theorem find?_map_overwrite {α : Type} (k : String) (v : α) :
    ∀ d : List (String × α), d.any (fun kv => kv.1 == k) = true →
      List.find? (fun kv => kv.1 == k)
        (d.map (fun kv => if kv.1 == k then (k, v) else kv)) = some (k, v)
  | [], h => by simp at h
  | kv :: rest, h => by
    rw [List.map_cons]
    by_cases hk : (kv.1 == k) = true
    · rw [if_pos hk]
      exact List.find?_cons_of_pos _ (by simp)
    · rw [if_neg hk, List.find?_cons_of_neg _ (by simpa using hk)]
      have hr : rest.any (fun kv => kv.1 == k) = true := by
        simpa [List.any_cons, hk] using h
      exact find?_map_overwrite k v rest hr

theorem find?_append_single {α : Type} (d : List (String × α)) (k : String) (v : α)
    (hn : List.find? (fun kv => kv.1 == k) d = none) :
    List.find? (fun kv => kv.1 == k) (d ++ [(k, v)]) = some (k, v) := by
  induction d with
  | nil => simp
  | cons kv rest ih =>
    rw [List.find?_cons] at hn
    rcases hkv : (kv.1 == k) with _ | _
    · rw [hkv] at hn
      simp only [List.cons_append]
      rw [List.find?_cons_of_neg _ (by simp [hkv])]
      exact ih hn
    · rw [hkv] at hn
      simp at hn

theorem dictLookup_dictSet {α : Type} (d : List (String × α)) (k : String) (v : α) :
    dictLookup (dictSet d k v) k = some v := by
  unfold dictSet dictLookup
  by_cases h : d.any (fun kv => kv.1 == k) = true
  · rw [if_pos h, find?_map_overwrite k v d h]
    rfl
  · have hn : List.find? (fun kv => kv.1 == k) d = none := by
      rw [List.find?_eq_none]
      intro x hx hpx
      exact absurd (List.any_eq_true.mpr ⟨x, hx, hpx⟩) h
    rw [if_neg h, find?_append_single d k v hn]
    rfl

theorem keyErase_not_contains (d : List String) (k : String) :
    (keyErase d k).contains k = false := by
  induction d with
  | nil => rfl
  | cons x rest ih =>
    by_cases h : x = k
    · rw [show keyErase (x :: rest) k = keyErase rest k from by
        simp [keyErase, List.filter_cons, h]]
      exact ih
    · have hxk : (x != k) = true := by simpa using h
      have hkx : (k == x) = false := beq_eq_false_iff_ne.mpr (fun e => h e.symm)
      simp only [keyErase, List.filter_cons, hxk, if_true, List.contains_cons, hkx,
        Bool.false_or]
      exact ih

/-! ## Claims on the Skill Router (C3, C5, C7, C10) -/

/-- C7: for a tool invocation that requires confirmation, the timeout
path (the fixed 60-second `asyncio.wait_for` deadline expiring) resolves
as denied, emits exactly one `skill_result` frame with `success=false`
stating the timeout after the `confirm_required` frame, removes the
pending entry, and returns the cancellation result without invoking the
executor; the explicit-denial path likewise returns the cancellation
result, emits no `skill_result` frame, and never invokes the executor. -/
theorem execute_denial_and_timeout
    (catalogConf : String → Bool) (executors : String → Option (Params → ExecutorRun))
    (confirmId funcName : String) (params : Params) (writeEnabled : Bool)
    (st : RouterState)
    (h : needsConfirmFor catalogConf funcName params = true) :
    confirmTimeoutSeconds = 60 ∧
    (execute catalogConf executors confirmId .timeout funcName params writeEnabled st =
      ⟨[Frame.confirmRequired confirmId (execSkillName funcName) (execActionName funcName)
          (confirmDescription funcName params) params,
        Frame.skillResult (execSkillName funcName) (execActionName funcName) false
          "Confirmation timed out (60s)"],
       "Action cancelled by user.",
       ⟨keyErase (keyAdd st.pending confirmId) confirmId,
        dictErase st.results confirmId⟩, false, false⟩) ∧
    (execute catalogConf executors confirmId .timeout funcName params writeEnabled
      st).state.pending.contains confirmId = false ∧
    (execute catalogConf executors confirmId (.resolved false) funcName params writeEnabled
      st).frames =
      [Frame.confirmRequired confirmId (execSkillName funcName) (execActionName funcName)
        (confirmDescription funcName params) params] ∧
    (execute catalogConf executors confirmId (.resolved false) funcName params writeEnabled
      st).result = "Action cancelled by user." ∧
    (execute catalogConf executors confirmId (.resolved false) funcName params writeEnabled
      st).executorInvoked = false ∧
    (execute catalogConf executors confirmId (.resolved false) funcName params writeEnabled
      st).effectReached = false ∧
    (execute catalogConf executors confirmId (.resolved false) funcName params writeEnabled
      st).state.pending.contains confirmId = false := by
  have hden : execute catalogConf executors confirmId (.resolved false) funcName params
      writeEnabled st =
      ⟨[Frame.confirmRequired confirmId (execSkillName funcName) (execActionName funcName)
          (confirmDescription funcName params) params],
       "Action cancelled by user.",
       ⟨keyErase (keyAdd st.pending confirmId) confirmId,
        dictErase (dictErase (dictSet st.results confirmId false) confirmId) confirmId⟩,
       false, false⟩ := by
    simp only [execute, h, if_true, handle_confirmation]
    rw [dictLookup_dictSet]
    rfl
  refine ⟨rfl, ?_, ?_, ?_, ?_, ?_, ?_, ?_⟩
  · simp only [execute, h, if_true]
  · simp only [execute, h, if_true]
    exact keyErase_not_contains _ _
  · rw [hden]
  · rw [hden]
  · rw [hden]
  · rw [hden]
  · rw [hden]
    exact keyErase_not_contains _ _

/-- Witness for `execute_denial_and_timeout` at a catalog-confirmed
action. -/
theorem execute_denial_and_timeout_witness :
    (execute (fun _ => true) (fun _ => none) "abc12345" ConfirmBehavior.timeout
      "docker-management__manage_container" [] false ⟨[], []⟩).result =
      "Action cancelled by user." ∧
    (execute (fun _ => true) (fun _ => none) "abc12345" (ConfirmBehavior.resolved false)
      "docker-management__manage_container" [] false ⟨[], []⟩).executorInvoked = false := by
  have h := execute_denial_and_timeout (fun _ => true) (fun _ => none) "abc12345"
    "docker-management__manage_container" [] false ⟨[], []⟩ (by rfl)
  exact ⟨by rw [h.2.1], h.2.2.2.2.2.1⟩

/-- C5 counterexample: resolving an id unknown to the router (no
pending event, no recorded result) is NOT a no-op — `handle_confirmation`
unconditionally writes the resolution value into the result map, so the
router's result state changes, though no waiter is signalled. -/
theorem handle_confirmation_unknown_id_changes_state :
    (handle_confirmation ⟨[], []⟩ "deadbeef" true).1 ≠ (⟨[], []⟩ : RouterState) ∧
    (handle_confirmation ⟨[], []⟩ "deadbeef" true).1.results = [("deadbeef", true)] ∧
    (handle_confirmation ⟨[], []⟩ "deadbeef" true).2 = false := by
  refine ⟨by decide, rfl, rfl⟩

/-- C5 amended: resolving an unknown (or already-resolved and hence
cleaned-up) confirmation id signals no waiter and leaves the pending map
unchanged, but it does record the resolution value in the result map,
overwriting any previously recorded value with the latest one — it is
not a full no-op. -/
theorem handle_confirmation_unknown_id_spec (st : RouterState) (id : String) (b : Bool)
    (h : st.pending.contains id = false) :
    (handle_confirmation st id b).2 = false ∧
    (handle_confirmation st id b).1.pending = st.pending ∧
    (handle_confirmation st id b).1.results = dictSet st.results id b ∧
    dictLookup (handle_confirmation st id b).1.results id = some b :=
  ⟨h, rfl, rfl, dictLookup_dictSet st.results id b⟩

/-- Witness for `handle_confirmation_unknown_id_spec`: re-resolving an
id that already carries a recorded value overwrites that value. -/
theorem handle_confirmation_unknown_id_spec_witness :
    (handle_confirmation ⟨[], [("x", true)]⟩ "x" false).2 = false ∧
    (handle_confirmation ⟨[], [("x", true)]⟩ "x" false).1.pending = [] ∧
    (handle_confirmation ⟨[], [("x", true)]⟩ "x" false).1.results =
      dictSet [("x", true)] "x" false ∧
    dictLookup (handle_confirmation ⟨[], [("x", true)]⟩ "x" false).1.results "x" =
      some false :=
  handle_confirmation_unknown_id_spec ⟨[], [("x", true)]⟩ "x" false rfl

/-- C10: for a tool name absent from the executor registry that does
not require confirmation, `execute` does not raise: it emits a
`skill_start` frame, then a `skill_result` frame with `success=false`,
and returns `"Unknown skill action: <toolName>"` as the result text,
leaving the router state unchanged. -/
theorem execute_unknown_action
    (catalogConf : String → Bool) (shell : ShellOutcome)
    (other : String → Params → ExecutorRun)
    (confirmId : String) (cb : ConfirmBehavior) (funcName : String) (params : Params)
    (writeEnabled : Bool) (st : RouterState)
    (h1 : EXECUTOR_NAMES.contains funcName = false)
    (h2 : catalogConf funcName = false) :
    execute catalogConf (executorsWith shell other) confirmId cb funcName params
      writeEnabled st =
      ⟨[Frame.skillStart (execSkillName funcName) (execActionName funcName) params,
        Frame.skillResult (execSkillName funcName) (execActionName funcName) false
          (pySlice ("Unknown skill action: " ++ funcName) 500)],
       "Unknown skill action: " ++ funcName, st, false, false⟩ := by
  have hnb : funcName ≠ "bash-execution__run_command" := by
    intro he
    rw [he] at h1
    exact absurd h1 (by decide)
  have hcr : confirmReasonFor funcName params = none := by
    simp [confirmReasonFor, hnb]
  have hnc : needsConfirmFor catalogConf funcName params = false := by
    simp [needsConfirmFor, h2, hcr]
  have hmem : funcName ∉ EXECUTOR_NAMES := by simpa using h1
  simp [execute, hnc, executeDispatch, executorsWith, hnb, hmem]

/-- Witness for `execute_unknown_action`. -/
theorem execute_unknown_action_witness :
    execute (fun _ => false)
      (executorsWith (.completed "" "") (fun _ _ => ⟨.ok "r", true⟩))
      "c1" (.resolved true) "nonexistent__thing" [] false ⟨[], []⟩ =
      ⟨[Frame.skillStart (execSkillName "nonexistent__thing")
          (execActionName "nonexistent__thing") [],
        Frame.skillResult (execSkillName "nonexistent__thing")
          (execActionName "nonexistent__thing") false
          (pySlice ("Unknown skill action: " ++ "nonexistent__thing") 500)],
       "Unknown skill action: " ++ "nonexistent__thing", ⟨[], []⟩, false, false⟩ :=
  execute_unknown_action _ _ _ _ _ _ _ _ _ (by rfl) rfl

/-- C3 counterexample: for the blocked command `"rm -rf /"` the Skill
Router's `skill_result` frame carries `success = true`, not the
`success = false` the claim asserts — `bash_execute` returns the
"Blocked: ..." text as a normal result string, so the router counts the
call as a successful execution (the effectful path is still never
reached). -/
theorem blocked_command_reported_success_true :
    (execute (fun _ => false)
      (executorsWith (.completed "ok" "") (fun _ _ => ⟨.ok "r", true⟩))
      "c1" (.resolved true) "bash-execution__run_command"
      [("command", .str "rm -rf /")] false ⟨[], []⟩).frames =
      [Frame.skillStart "bash-execution" "run_command" [("command", .str "rm -rf /")],
       Frame.skillResult "bash-execution" "run_command" true
        "Blocked: Blocked: Command matches dangerous pattern (\\brm\\s+(-rf?\\s+)?/\\s*$)"] ∧
    (execute (fun _ => false)
      (executorsWith (.completed "ok" "") (fun _ _ => ⟨.ok "r", true⟩))
      "c1" (.resolved true) "bash-execution__run_command"
      [("command", .str "rm -rf /")] false ⟨[], []⟩).effectReached = false := by
  exact ⟨rfl, rfl⟩

theorem find?_command_map_writeFlag (v : PVal) :
    ∀ d : Params, List.find? (fun kv => kv.1 == "command")
        (d.map (fun kv => if kv.1 == "_write_enabled" then ("_write_enabled", v) else kv)) =
      List.find? (fun kv => kv.1 == "command") d
  | [] => rfl
  | kv :: rest => by
    have e1 : (("_write_enabled" : String) == "command") = false := by decide
    by_cases hw : (kv.1 == "_write_enabled") = true
    · have hk : kv.1 = "_write_enabled" := eq_of_beq hw
      simp only [List.map_cons, if_pos hw, List.find?_cons, hk, e1, Bool.false_eq_true,
        if_false]
      exact find?_command_map_writeFlag v rest
    · by_cases hc : (kv.1 == "command") = true
      · simp only [List.map_cons, if_neg hw, List.find?_cons, hc, if_true]
      · have hc2 : (kv.1 == "command") = false := Bool.eq_false_iff.mpr hc
        simp only [List.map_cons, if_neg hw, List.find?_cons, hc2, Bool.false_eq_true,
          if_false]
        exact find?_command_map_writeFlag v rest

theorem find?_command_append_writeFlag (v : PVal) :
    ∀ d : Params, List.find? (fun kv => kv.1 == "command")
        (d ++ [("_write_enabled", v)]) =
      List.find? (fun kv => kv.1 == "command") d
  | [] => by
    simp only [List.nil_append, List.find?_cons, List.find?_nil]
    rfl
  | kv :: rest => by
    by_cases hc : (kv.1 == "command") = true
    · simp only [List.cons_append, List.find?_cons, hc, if_true]
    · have hc2 : (kv.1 == "command") = false := Bool.eq_false_iff.mpr hc
      simp only [List.cons_append, List.find?_cons, hc2, Bool.false_eq_true, if_false]
      exact find?_command_append_writeFlag v rest

theorem commandParam_writeFlag (d : Params) (v : PVal) :
    commandParam (dictSet d "_write_enabled" v) = commandParam d := by
  unfold commandParam plookup dictLookup dictSet
  by_cases h : d.any (fun kv => kv.1 == "_write_enabled") = true
  · rw [if_pos h, find?_command_map_writeFlag v d]
  · rw [if_neg h, find?_command_append_writeFlag v d]

/-- C3 amended: for every tool invocation of the shell action whose
command matches a blocked safety pattern (and which reaches dispatch
without a confirmation), the command never reaches the executor's
effectful subprocess path (the outcome is independent of the shell
behaviour), and the router reports a `skill_result` frame whose output
names the block reason but whose `success` field is TRUE. -/
theorem blocked_command_never_reaches_executor
    (shell : ShellOutcome) (other : String → Params → ExecutorRun)
    (catalogConf : String → Bool) (confirmId : String) (cb : ConfirmBehavior)
    (cmd reason : String) (params : Params) (writeEnabled : Bool) (st : RouterState)
    (hcmd : commandParam params = some cmd)
    (hblock : validate_command cmd = (false, some reason))
    (hconf : needsConfirmFor catalogConf "bash-execution__run_command" params = false) :
    (execute catalogConf (executorsWith shell other) confirmId cb
        "bash-execution__run_command" params writeEnabled st).effectReached = false ∧
    (execute catalogConf (executorsWith shell other) confirmId cb
        "bash-execution__run_command" params writeEnabled st).result =
      "Blocked: " ++ reason ∧
    (execute catalogConf (executorsWith shell other) confirmId cb
        "bash-execution__run_command" params writeEnabled st).frames =
      [Frame.skillStart "bash-execution" "run_command" params,
       Frame.skillResult "bash-execution" "run_command" true
         (pySlice ("Blocked: " ++ reason) 500)] ∧
    (∀ shell2, execute catalogConf (executorsWith shell2 other) confirmId cb
        "bash-execution__run_command" params writeEnabled st =
      execute catalogConf (executorsWith shell other) confirmId cb
        "bash-execution__run_command" params writeEnabled st) := by
  have hmain : ∀ sh : ShellOutcome,
      execute catalogConf (executorsWith sh other) confirmId cb
        "bash-execution__run_command" params writeEnabled st =
      ⟨[Frame.skillStart "bash-execution" "run_command" params,
        Frame.skillResult "bash-execution" "run_command" true
          (pySlice ("Blocked: " ++ reason) 500)],
       "Blocked: " ++ reason, st, true, false⟩ := by
    intro sh
    have hcmd2 : commandParam (if writeEnabled = true then
        dictSet params "_write_enabled" (.bool true) else params) = some cmd := by
      cases writeEnabled
      · simpa using hcmd
      · rw [if_pos rfl, commandParam_writeFlag]
        exact hcmd
    simp only [execute, hconf, Bool.false_eq_true, if_false, executeDispatch,
      executorsWith, if_pos, bashExecutor, hcmd2, bash_execute, hblock]
    rfl
  exact ⟨by rw [hmain shell], by rw [hmain shell], by rw [hmain shell],
    fun sh2 => by rw [hmain sh2, hmain shell]⟩

/-! ## Claims on the gateway message loop and round loop (C1, C2, C4, C6) -/

/-- Witness for `blocked_command_never_reaches_executor` at the blocked
command `"shutdown -h now"` with write capability enabled and a shell
that would time out if it were ever reached. -/
theorem blocked_command_never_reaches_executor_witness :
    (execute (fun _ => false)
      (executorsWith ShellOutcome.timedOut (fun _ _ => ⟨.ok "r", true⟩))
      "c2" (.resolved true) "bash-execution__run_command"
      [("command", .str "shutdown -h now")] true ⟨[], []⟩).effectReached = false ∧
    (execute (fun _ => false)
      (executorsWith ShellOutcome.timedOut (fun _ _ => ⟨.ok "r", true⟩))
      "c2" (.resolved true) "bash-execution__run_command"
      [("command", .str "shutdown -h now")] true ⟨[], []⟩).result =
      "Blocked: Blocked: Command matches dangerous pattern (\\bshutdown\\b)" := by
  have h := blocked_command_never_reaches_executor ShellOutcome.timedOut
    (fun _ _ => ⟨.ok "r", true⟩) (fun _ => false) "c2" (.resolved true)
    "shutdown -h now" "Blocked: Command matches dangerous pattern (\\bshutdown\\b)"
    [("command", .str "shutdown -h now")] true ⟨[], []⟩ rfl (by rfl) (by rfl)
  exact ⟨h.1, h.2.1⟩

/-- C6 counterexample: an inbound frame whose type is `"subscribe"`
(none of `ping`/`confirm`/`message`/`chat`) yields NO frames at all —
the gateway does not reply with an `error` frame; the loop just
continues. -/
theorem unknown_frame_type_silently_ignored :
    (messageLoopStep (.obj (some "subscribe") "" "c" false) [] none ⟨[], []⟩).frames =
      [] ∧
    (messageLoopStep (.obj (some "subscribe") "" "c" false) [] none ⟨[], []⟩).outcome =
      StepOutcome.continueLoop :=
  ⟨rfl, rfl⟩

/-- C6 amended: an unparsable inbound payload is answered with an
`error` frame (`"Invalid JSON"`) and the receive loop continues; an
inbound frame whose type is none of `ping`/`confirm`/`message`/`chat`
is silently ignored — no frame is emitted — and the loop continues
(the connection is not closed in either case). -/
theorem message_loop_protocol_errors (ty content cid : String) (cf : Bool)
    (msgs : List ChatMessage) (title : Option String) (st : RouterState)
    (h1 : ty ≠ "ping") (h2 : ty ≠ "confirm") (h3 : ty ≠ "message") (h4 : ty ≠ "chat") :
    messageLoopStep .badJson msgs title st =
      ⟨[.error "Invalid JSON"], msgs, title, st, .continueLoop⟩ ∧
    messageLoopStep (.obj (some ty) content cid cf) msgs title st =
      ⟨[], msgs, title, st, .continueLoop⟩ := by
  refine ⟨rfl, ?_⟩
  simp [messageLoopStep, h1, h2, h3, h4]

/-- Witness for `message_loop_protocol_errors` at type
`"unsubscribe"`. -/
theorem message_loop_protocol_errors_witness :
    messageLoopStep .badJson [] none ⟨[], []⟩ =
      ⟨[.error "Invalid JSON"], [], none, ⟨[], []⟩, .continueLoop⟩ ∧
    messageLoopStep (.obj (some "unsubscribe") "x" "c" true) [] none ⟨[], []⟩ =
      ⟨[], [], none, ⟨[], []⟩, .continueLoop⟩ :=
  message_loop_protocol_errors "unsubscribe" "x" "c" true [] none ⟨[], []⟩
    (by decide) (by decide) (by decide) (by decide)

def noToolsEnv : GatewayEnv :=
  ⟨fun _ => .ok ["no tools"] [], fun _ => none, fun _ => false, fun _ => none,
   fun _ _ => ("c", .resolved true)⟩

/-- C1 (code bug): the chat branch of `_message_loop` appends the user
message and then evaluates the unbound name `write_enabled` at
`websocket_gateway.py:259`, so the turn crashes with a `NameError`
before any streaming: no `chunk` or `message_done` frame is emitted and
the transcript grows by only the user message.  The second and third
conjuncts show the claimed scenario is exactly what `_stream_response`
itself produces when invoked as its signature intends (one chunk, one
`message_done` with content `"no tools"`, transcript + user + assistant
= 2 messages), so the claim describes the intent and the unbound name
is the slip. -/
theorem chat_turn_raises_name_error :
    messageLoopStep (.obj (some "chat") "list containers" "" false) [] none ⟨[], []⟩ =
      ⟨[], [⟨"user", "list containers", none, none, none⟩], some "list containers",
        ⟨[], []⟩, .crash "NameError: name 'write_enabled' is not defined"⟩ ∧
    (streamResponse noToolsEnv false [⟨"user", "list containers", none, none, none⟩]
        ⟨[], []⟩).frames =
      [Frame.chunk "no tools", Frame.messageDone "no tools"] ∧
    (streamResponse noToolsEnv false [⟨"user", "list containers", none, none, none⟩]
        ⟨[], []⟩).messages =
      [⟨"user", "list containers", none, none, none⟩, assistantMsg "no tools"] :=
  ⟨rfl, rfl, rfl⟩

def malformedArgsEnv : GatewayEnv :=
  ⟨fun _ => .ok ["hi"] [⟨"call_1", "bash-execution__run_command", .rstr "\x7bbad"⟩],
   fun _ => none, fun _ => false, fun _ => none, fun _ _ => ("c", .resolved true)⟩

/-- C2 (code bug): when a round returns content together with tool
calls that are all dropped for malformed arguments, the branch at
`websocket_gateway.py:397-409` sends `message_done` WITHOUT setting
`done_sent`, so the terminal safety net (lines 470-488) sends a second
`message_done`: the turn emits two `message_done` frames, not exactly
one. -/
theorem double_message_done_on_malformed_tool_calls :
    (streamResponse malformedArgsEnv false [] ⟨[], []⟩).frames =
      [Frame.chunk "hi", Frame.messageDone "hi", Frame.messageDone "hi"] ∧
    countMessageDone (streamResponse malformedArgsEnv false [] ⟨[], []⟩).frames = 2 :=
  ⟨rfl, rfl⟩

def alwaysToolCallEnv : GatewayEnv :=
  ⟨fun _ => .ok [] [⟨"call_1", "zzz__act", .rdict []⟩],
   fun _ => none, fun _ => false, fun _ => none, fun _ _ => ("c", .resolved true)⟩

/-- C4 counterexample: against a completion service that always
returns a valid tool call, the round loop performs
`range(max_tool_rounds + 1)` = 6 completion-service rounds, not the
claimed 5 (`max_tool_rounds` = 5 but the loop iterates once more). -/
theorem round_loop_runs_six_rounds :
    (streamResponse alwaysToolCallEnv false [] ⟨[], []⟩).roundsUsed = 6 ∧
    (streamResponse alwaysToolCallEnv false [] ⟨[], []⟩).roundsUsed ≠ 5 ∧
    countMessageDone (streamResponse alwaysToolCallEnv false [] ⟨[], []⟩).frames = 1 := by
  refine ⟨rfl, ?_, rfl⟩
  rw [show (streamResponse alwaysToolCallEnv false [] ⟨[], []⟩).roundsUsed = 6 from rfl]
  decide

def goodRound (parse : String → Option Params) : LLMRound → Bool
  | .ok _ tcs => !(validToolCalls parse tcs).isEmpty
  | .errAfter _ _ => false

theorem countMessageDone_append (a b : List Frame) :
    countMessageDone (a ++ b) = countMessageDone a + countMessageDone b :=
  List.countP_append _ _ _

theorem countMessageDone_chunks (cs : List String) :
    countMessageDone (cs.map Frame.chunk) = 0 := by
  unfold countMessageDone
  induction cs with
  | nil => rfl
  | cons c rest ih =>
    have hc : Frame.isMessageDone (Frame.chunk c) = false := rfl
    simp [List.countP_cons, hc, ih]

theorem countMessageDone_executeDispatch (executors : String → Option (Params → ExecutorRun))
    (funcName skillName actionName : String) (params : Params) (wEn : Bool)
    (frames0 : List Frame) (st : RouterState) :
    countMessageDone (executeDispatch executors funcName skillName actionName params
      wEn frames0 st).frames = countMessageDone frames0 := by
  unfold executeDispatch
  cases executors funcName with
  | none =>
    simp [countMessageDone_append, countMessageDone, List.countP_cons,
      Frame.isMessageDone]
  | some ex =>
    cases hrun : ex (if wEn = true then dictSet params "_write_enabled" (PVal.bool true)
      else params) with
    | mk o eff =>
      cases o <;>
        simp [hrun, countMessageDone_append, countMessageDone, List.countP_cons,
          Frame.isMessageDone]

theorem countMessageDone_execute (catalogConf : String → Bool)
    (executors : String → Option (Params → ExecutorRun)) (confirmId : String)
    (cb : ConfirmBehavior) (funcName : String) (params : Params) (wEn : Bool)
    (st : RouterState) :
    countMessageDone (execute catalogConf executors confirmId cb funcName params wEn
      st).frames = 0 := by
  unfold execute
  by_cases h : needsConfirmFor catalogConf funcName params = true
  · simp only [h, if_true]
    cases cb with
    | resolved b =>
      simp only [handle_confirmation, dictLookup_dictSet, Option.getD_some]
      cases b with
      | true =>
        rw [if_pos rfl, countMessageDone_executeDispatch]
        rfl
      | false =>
        rw [if_neg Bool.false_ne_true]
        rfl
    | timeout => rfl
  · simp only [Bool.eq_false_iff.mpr h, Bool.false_eq_true, if_false]
    rw [countMessageDone_executeDispatch]
    rfl

theorem countMessageDone_execCalls (env : GatewayEnv) (wEn : Bool) (roundNum : Nat)
    (remap : List (String × String)) :
    ∀ (vtcs : List (ToolCall × Params)) (j : Nat) (msgs : List ChatMessage)
      (frames : List Frame) (st : RouterState),
      countMessageDone (execCalls env wEn roundNum remap vtcs j msgs frames st).2.1 =
        countMessageDone frames
  | [], _, _, _, _ => rfl
  | (tc, args) :: rest, j, msgs, frames, st => by
    simp only [execCalls]
    rw [countMessageDone_execCalls env wEn roundNum remap rest (j + 1) _ _ _]
    rw [countMessageDone_append, countMessageDone_execute]
    omega

theorem safetyNet_roundsUsed (msgs : List ChatMessage) (frames : List Frame)
    (allParts : List String) (n : Nat) :
    (safetyNet msgs frames allParts n).roundsUsed = n := by
  unfold safetyNet
  by_cases h : pyJoin "\n\n" allParts ≠ ""
  · rw [if_pos h]
  · rw [if_neg h]

theorem safetyNet_countDone (msgs : List ChatMessage) (frames : List Frame)
    (allParts : List String) (n : Nat) :
    countMessageDone (safetyNet msgs frames allParts n).frames =
      countMessageDone frames + 1 := by
  unfold safetyNet
  by_cases h : pyJoin "\n\n" allParts ≠ ""
  · rw [if_pos h]
    simp [countMessageDone_append, countMessageDone, List.countP_cons,
      Frame.isMessageDone]
  · rw [if_neg h]
    simp [countMessageDone_append, countMessageDone, List.countP_cons,
      Frame.isMessageDone]

theorem validToolCalls_ne_nil_tcs_ne_nil (parse : String → Option Params)
    (tcs : List ToolCall) (h : (validToolCalls parse tcs).isEmpty = false) :
    tcs.isEmpty = false := by
  cases tcs with
  | nil => simp [validToolCalls] at h
  | cons a b => rfl

theorem streamGo_always_tools (env : GatewayEnv) (wEn : Bool) :
    ∀ (remaining roundNum : Nat) (msgs : List ChatMessage) (allParts : List String)
      (remap : List (String × String)) (frames : List Frame) (st : RouterState),
      (∀ i, roundNum ≤ i → i < roundNum + remaining →
        goodRound env.parse (env.rounds i) = true) →
      (streamGo env wEn remaining roundNum msgs allParts remap frames st).roundsUsed =
        roundNum + remaining ∧
      countMessageDone (streamGo env wEn remaining roundNum msgs allParts remap frames
        st).frames = countMessageDone frames + 1
  | 0, roundNum, msgs, allParts, remap, frames, st, _ => by
    constructor
    · simpa [streamGo] using safetyNet_roundsUsed msgs frames allParts roundNum
    · simpa [streamGo] using safetyNet_countDone msgs frames allParts roundNum
  | remaining+1, roundNum, msgs, allParts, remap, frames, st, h => by
    have hg := h roundNum (Nat.le_refl _) (by omega)
    cases hr : env.rounds roundNum with
    | errAfter chunks detail =>
      rw [hr] at hg
      simp [goodRound] at hg
    | ok chunks tcs =>
      rw [hr] at hg
      have hv : (validToolCalls env.parse tcs).isEmpty = false := by
        simpa [goodRound] using hg
      have htcs : tcs.isEmpty = false := validToolCalls_ne_nil_tcs_ne_nil _ _ hv
      have hsh : ∀ i, roundNum + 1 ≤ i → i < roundNum + 1 + remaining →
          goodRound env.parse (env.rounds i) = true :=
        fun i h1 h2 => h i (by omega) (by omega)
      simp only [streamGo, hr, callLLMStream, htcs, Bool.false_eq_true, if_false, hv]
      constructor
      · rw [show roundNum + (remaining + 1) = roundNum + 1 + remaining from by omega]
        exact (streamGo_always_tools env wEn remaining (roundNum + 1) _ _ _ _ _ hsh).1
      · rw [(streamGo_always_tools env wEn remaining (roundNum + 1) _ _ _ _ _ hsh).2]
        rw [countMessageDone_execCalls, countMessageDone_append, countMessageDone_chunks]

/-- C4 amended: for every completion-service behaviour that produces at
least one valid tool call on each of the first `max_tool_rounds + 1`
rounds, the round loop performs exactly `max_tool_rounds + 1` = 6
rounds and then terminates the turn, still emitting exactly one
`message_done`/fallback frame. -/
theorem round_loop_bound (env : GatewayEnv) (wEn : Bool) (msgs : List ChatMessage)
    (st : RouterState)
    (h : ∀ i, i < max_tool_rounds + 1 → goodRound env.parse (env.rounds i) = true) :
    (streamResponse env wEn msgs st).roundsUsed = max_tool_rounds + 1 ∧
    countMessageDone (streamResponse env wEn msgs st).frames = 1 := by
  have hall := streamGo_always_tools env wEn (max_tool_rounds + 1) 0 msgs [] [] [] st
    (fun i _ hi => h i (by omega))
  constructor
  · simpa [streamResponse] using hall.1
  · have := hall.2
    rw [show countMessageDone [] = 0 from rfl] at this
    simpa [streamResponse] using this

/-- Witness for `round_loop_bound`. -/
theorem round_loop_bound_witness :
    (streamResponse alwaysToolCallEnv false [] ⟨[], []⟩).roundsUsed =
      max_tool_rounds + 1 ∧
    countMessageDone (streamResponse alwaysToolCallEnv false [] ⟨[], []⟩).frames = 1 :=
  round_loop_bound alwaysToolCallEnv false [] ⟨[], []⟩ (by decide)

/-! ## Claims on the Safety Validator (C8, C9) -/

/-- C8 counterexample: for the non-matching command `"docker ps"`,
`validate_command` returns `(True, None)` — the reason is Python's
`None`, not the empty string `""` the claim states. -/
theorem validate_command_returns_none_not_empty :
    validate_command "docker ps" = (true, none) ∧
    validate_command "docker ps" ≠ ((true : Bool), some "") := by
  constructor
  · rfl
  · intro h
    rw [show validate_command "docker ps" = (true, none) from rfl] at h
    simp at h

/-- C8 amended: `validate_command` is a total function over every input
string (a Lean function, so it never throws): for every string matched
by none of the blocked patterns it returns `(True, None)` (not
`(true, "")`); for every string it either returns `(True, None)` or
`(False, reason)` where the reason names the FIRST matching pattern's
source text; in particular `"rm -rf /"` is denied by the first pattern
and `"docker ps"` is allowed. -/
theorem validate_command_spec (cmd : String) :
    ((∀ p ∈ BLOCKED_PATTERNS, reSearch true p.re cmd = false) →
      validate_command cmd = (true, none)) ∧
    (∀ p, BLOCKED_PATTERNS.find? (fun q => reSearch true q.re cmd) = some p →
      validate_command cmd = (false, some (blockReason p)) ∧ p ∈ BLOCKED_PATTERNS) ∧
    validate_command "rm -rf /" =
      (false,
       some "Blocked: Command matches dangerous pattern (\\brm\\s+(-rf?\\s+)?/\\s*$)") ∧
    validate_command "docker ps" = (true, none) := by
  refine ⟨?_, ?_, rfl, rfl⟩
  · intro hnone
    unfold validate_command
    rw [List.find?_eq_none.mpr (fun p hp => by rw [hnone p hp]; exact Bool.false_ne_true)]
  · intro p hp
    unfold validate_command
    rw [hp]
    exact ⟨rfl, List.mem_of_find?_eq_some hp⟩

/-- Witness for `validate_command_spec`: the no-match implication at
`"ls -la"` and the first-match implication at `"rm -rf /"`. -/
theorem validate_command_spec_witness :
    validate_command "ls -la" = (true, none) ∧
    validate_command "rm -rf /" =
      (false,
       some "Blocked: Command matches dangerous pattern (\\brm\\s+(-rf?\\s+)?/\\s*$)") := by
  refine ⟨(validate_command_spec "ls -la").1 (by decide), ?_⟩
  have h := (validate_command_spec "rm -rf /").2.1
    ⟨"\\brm\\s+(-rf?\\s+)?/\\s*$",
      reCat [.wordB, reStr "rm", rePlus sCls,
        .opt (reCat [.lit '-', .lit 'r', .opt (.lit 'f'), rePlus sCls]),
        .lit '/', .star sCls, .eos]⟩ (by rfl)
  exact h.1

def uuidStr : String := "0123abcd-0123-abcd-0123-0123456789ab"

/-- C9 counterexample: a span matching the UUID redaction rule is NOT
replaced with a redaction marker — the rule's lambda returns the match
itself whenever its length is at most 36, and every match of the
pattern is exactly 36 characters, so `sanitize_output` leaves the UUID
untouched. -/
theorem sanitize_output_uuid_not_redacted :
    (mtchRule uuidRule none uuidStr.data).isSome = true ∧
    sanitize_output uuidStr 8000 = uuidStr := by
  constructor
  · rfl
  · rfl

theorem subGo_no_match_z (ru : SubRule)
    (hz : ∀ (p : Option Char) (rest : List Char), mtchRule ru p ('z' :: rest) = none)
    (h0 : ∀ p : Option Char, mtchRule ru p [] = none) :
    ∀ (n fuel : Nat) (p : Option Char) (acc : List Char), n ≤ fuel →
      subGo ru fuel p (List.replicate n 'z') acc = acc ++ List.replicate n 'z'
  | 0, fuel, p, acc, hle => by
    cases fuel with
    | zero => simp [subGo]
    | succ f => simp [subGo, h0 p]
  | n+1, fuel, p, acc, hle => by
    cases fuel with
    | zero => omega
    | succ f =>
      rw [List.replicate_succ]
      simp only [subGo, hz p (List.replicate n 'z')]
      rw [subGo_no_match_z ru hz h0 n f (some 'z') (acc ++ ['z']) (by omega)]
      simp

theorem reSub_replicate_z (ru : SubRule)
    (hz : ∀ (p : Option Char) (rest : List Char), mtchRule ru p ('z' :: rest) = none)
    (h0 : ∀ p : Option Char, mtchRule ru p [] = none) (n : Nat) :
    reSub ru (String.mk (List.replicate n 'z')) = String.mk (List.replicate n 'z') := by
  show String.mk (subGo ru ((String.mk (List.replicate n 'z')).length + 1) none
    (String.mk (List.replicate n 'z')).data []) = _
  rw [show (String.mk (List.replicate n 'z')).length = n from by
    show (List.replicate n 'z').length = n
    simp]
  rw [show (String.mk (List.replicate n 'z')).data = List.replicate n 'z' from rfl]
  rw [subGo_no_match_z ru hz h0 n (n + 1) none [] (by omega)]
  rfl

theorem redact_fold_replicate_z (n : Nat) :
    REDACT_RULES.foldl (fun acc ru => reSub ru acc)
      (reSub ANSI_RULE (String.mk (List.replicate n 'z'))) =
      String.mk (List.replicate n 'z') := by
  rw [reSub_replicate_z ANSI_RULE (fun _ _ => rfl) (fun _ => rfl) n]
  show List.foldl _ _ REDACT_RULES = _
  simp only [REDACT_RULES, List.foldl_cons, List.foldl_nil]
  rw [reSub_replicate_z credentialRule (fun _ _ => rfl) (fun _ => rfl) n,
    reSub_replicate_z bearerRule (fun _ _ => rfl) (fun _ => rfl) n,
    reSub_replicate_z skTestRule (fun _ _ => rfl) (fun _ => rfl) n,
    reSub_replicate_z skLiveRule (fun _ _ => rfl) (fun _ => rfl) n,
    reSub_replicate_z pkTestRule (fun _ _ => rfl) (fun _ => rfl) n,
    reSub_replicate_z whsecRule (fun _ _ => rfl) (fun _ => rfl) n,
    reSub_replicate_z uuidRule (fun _ _ => rfl) (fun _ => rfl) n]

def zBig : String := String.mk (List.replicate 10000 'z')

theorem pySlice_length_le (s : String) (n : Nat) : (pySlice s n).length ≤ n := by
  show (s.data.take n).length ≤ n
  simp [List.length_take]

theorem sanitize_zBig :
    sanitize_output zBig 8000 =
      String.mk (List.replicate 8000 'z') ++ truncationNotice 10000 := by
  rw [show sanitize_output zBig 8000 =
      (if (REDACT_RULES.foldl (fun acc ru => reSub ru acc)
            (reSub ANSI_RULE zBig)).length > 8000
       then pySlice (REDACT_RULES.foldl (fun acc ru => reSub ru acc)
              (reSub ANSI_RULE zBig)) 8000 ++ truncationNotice zBig.length
       else REDACT_RULES.foldl (fun acc ru => reSub ru acc) (reSub ANSI_RULE zBig))
    from rfl]
  rw [show zBig = String.mk (List.replicate 10000 'z') from rfl]
  rw [redact_fold_replicate_z 10000]
  have hnotice : (String.mk (List.replicate 10000 'z')).length = 10000 := by
    show (List.replicate 10000 'z').length = 10000
    rw [List.length_replicate]
  rw [if_pos (by rw [hnotice]; omega)]
  have hslice : pySlice (String.mk (List.replicate 10000 'z')) 8000 =
      String.mk (List.replicate 8000 'z') := by
    show String.mk ((List.replicate 10000 'z').take 8000) = _
    rw [List.take_replicate]
    norm_num
  rw [hnotice, hslice]

theorem string_length_append (a b : String) :
    (a ++ b).length = a.length + b.length := by
  show (a.data ++ b.data).length = a.data.length + b.data.length
  simp

/-- C9 amended: `sanitize_output` strips terminal escape sequences and
replaces spans matching the credential / bearer / API-key / webhook
redaction rules with redaction markers (the UUID rule, by contrast,
leaves its 36-character matches unchanged); an input containing
`password=supersecret123` sanitizes to the marker and never the literal
secret; the result never exceeds `maxLength` plus the truncation
notice; and a 10,000-character input with `maxLength = 8000` yields the
8000-character prefix plus a notice stating 10,000 as the original
length. -/
theorem sanitize_output_spec :
    sanitize_output "password=supersecret123" 8000 = "password=<REDACTED>" ∧
    sanitize_output "\x1b[31mred\x1b[0m plain" 8000 = "red plain" ∧
    (∀ (output : String) (maxLength : Nat),
      (sanitize_output output maxLength).length ≤
        maxLength + (truncationNotice output.length).length) ∧
    sanitize_output zBig 8000 =
      String.mk (List.replicate 8000 'z') ++ truncationNotice 10000 ∧
    truncationNotice 10000 = "\n\n... (output truncated, 10000 total chars)" := by
  refine ⟨rfl, rfl, ?_, sanitize_zBig, rfl⟩
  intro output maxLength
  rw [show sanitize_output output maxLength =
      (if (REDACT_RULES.foldl (fun acc ru => reSub ru acc)
            (reSub ANSI_RULE output)).length > maxLength
       then pySlice (REDACT_RULES.foldl (fun acc ru => reSub ru acc)
              (reSub ANSI_RULE output)) maxLength ++ truncationNotice output.length
       else REDACT_RULES.foldl (fun acc ru => reSub ru acc) (reSub ANSI_RULE output))
    from rfl]
  by_cases h : (REDACT_RULES.foldl (fun acc ru => reSub ru acc)
      (reSub ANSI_RULE output)).length > maxLength
  · rw [if_pos h, string_length_append]
    have := pySlice_length_le (REDACT_RULES.foldl (fun acc ru => reSub ru acc)
      (reSub ANSI_RULE output)) maxLength
    omega
  · rw [if_neg h]
    omega

end Colonel
